import Mathlib

/-!
Verification of the natural-language specification of
`src/library_acquisitions/generic_pol_creator.py` against a shallow
embedding of its code.

The program builds Alma purchase-order-line JSON documents by merging a
JSON template with interactively collected user input.  The embedding
below models:

* JSON values (`Json`) and Python dictionaries as ordered association
  lists (`Kvs`) with insertion-order preserving update semantics;
* the validators `validate_receiving_categories` and `validate_isbn`;
* the category-string construction in `get_receiving_note_categories`;
* the pure merge `customize_template` (fallible, returning `none`
  exactly where the Python code would raise an exception);
* Python `float()` parsing and two-decimal `%.2f` formatting, including
  IEEE-754 double rounding, used by the price-formatting step;
* `generate_filename` with its regex-based sanitization.

Modelling conventions: Python character classes (`\w`, `\s`,
`str.isalnum`) are modelled over ASCII; JSON numbers are modelled as
integers (they are inert pass-through data in the merge); the negative
zero of IEEE doubles is identified with zero (it can only arise from
the inputs "-0", "-0.0", ... and only affects the printed sign).
-/

set_option linter.unusedVariables false
set_option maxRecDepth 100000
set_option exponentiation.threshold 1100

/-- JSON values, as produced by Python's `json.load`. -/
inductive Json where
  | null : Json
  | bool : Bool → Json
  | num : Int → Json
  | str : String → Json
  | arr : List Json → Json
  | obj : List (String × Json) → Json
deriving Repr

/-- A Python dict with string keys, in insertion order. -/
abbrev Kvs := List (String × Json)

/-- Dict lookup `d[key]` on a dict: first binding wins (dict keys are unique). -/
def getKey : Kvs → String → Option Json
  | [], _ => none
  | (k, v) :: rest, key => if k = key then some v else getKey rest key

/-- Dict assignment `d[key] = val`: update in place if the key is present (keeping its
position, as Python dicts do), otherwise append at the end. -/
def setKey : Kvs → String → Json → Kvs
  | [], key, val => [(key, val)]
  | (k, v) :: rest, key, val =>
    if k = key then (k, val) :: rest else (k, v) :: setKey rest key val

/-- Dict removal `d.pop(key, None)`: remove the binding of `key` (dict keys are
unique, so removing every binding equals removing the one binding). -/
def popKey : Kvs → String → Kvs
  | [], _ => []
  | (k, v) :: rest, key =>
    if k = key then popKey rest key else (k, v) :: popKey rest key

/-- Dict membership `key in d`. -/
def hasKey (kvs : Kvs) (key : String) : Bool :=
  (getKey kvs key).isSome

/-- Python truthiness of a JSON value. -/
def Json.truthy : Json → Bool
  | Json.null => false
  | Json.bool b => b
  | Json.num n => n ≠ 0
  | Json.str s => s ≠ ""
  | Json.arr xs => !xs.isEmpty
  | Json.obj kvs => !kvs.isEmpty

/-! ## Validators (`generic_pol_creator.py` lines 387–435) -/

/-- Result of a questionary validator: Python `True` means valid, a
string means the validation message for an invalid input. -/
inductive VResult where
  | valid : VResult
  | invalid : String → VResult
deriving Repr, DecidableEq

/-- ASCII whitespace, modelling Python's `str.strip()` / regex `\s`. -/
def isPyWs (c : Char) : Bool :=
  c = ' ' || c = '\t' || c = '\n' || c = '\r' || c = '\x0b' || c = '\x0c'

/-- Python `text.strip()` on the character list of a string. -/
def stripWs (l : List Char) : List Char :=
  ((l.dropWhile isPyWs).reverse.dropWhile isPyWs).reverse

/-- ASCII `str.isalnum()` / alphanumeric filter used by `validate_isbn`. -/
def isAlnumChar (c : Char) : Bool :=
  c.isAlpha || c.isDigit

/-- Validator `validate_isbn` (lines 398–409): empty (after strip) is accepted;
otherwise keep only alphanumeric characters and require length 10 or 13. -/
def validate_isbn (text : String) : VResult :=
  if stripWs text.toList = [] then VResult.valid
  else
    let clean_isbn := text.toList.filter isAlnumChar
    if clean_isbn.length ≠ 10 ∧ clean_isbn.length ≠ 13 then
      VResult.invalid "ISBN should be 10 or 13 digits"
    else VResult.valid

/-- Validator `validate_receiving_categories` (lines 427–435). -/
def validate_receiving_categories (selected : List String) : VResult :=
  if selected.isEmpty then VResult.invalid "Please select at least one category"
  else if "None" ∈ selected ∧ 1 < selected.length then
    VResult.invalid "Cannot select 'None' with other categories"
  else VResult.valid

/-! ## Receiving-note category string (`get_receiving_note_categories`) -/

/-- Python `sep.join(items)`. -/
def pyJoin (sep : String) : List String → String
  | [] => ""
  | [x] => x
  | x :: y :: rest => x ++ sep ++ pyJoin sep (y :: rest)

/-- The fixed category enumeration offered by the checkbox (lines 324–331). -/
def categories : List String :=
  ["None", "Note", "Interested User", "Reserve", "Display", "Replacement"]

/-- The category string returned by `get_receiving_note_categories`
(lines 339–344): the sentinel `"None"` for an empty selection or any
selection containing `"None"`, otherwise the labels joined with `" | "`
in the order of the selection list. -/
def receiving_category_string (selected : List String) : String :=
  if selected.isEmpty || selected.contains "None" then "None"
  else pyJoin " | " selected

/-! ## Python `float()` parsing and two-decimal `%.2f` formatting

The merge formats the price with
`price_float = float(price)` followed by two-decimal formatting, falling
back to the raw string when `float` raises `ValueError` (lines
492–497).  We model `float()` faithfully over ASCII strings: optional
surrounding whitespace, optional sign, `inf`/`infinity`/`nan`
(case-insensitive), or a decimal literal with optional fraction and
exponent and with underscores allowed between digits; the exact decimal
value is then rounded to the nearest IEEE-754 double (round half to
even, overflow to infinity). -/

/-- The value of a Python float: a finite double (an exact rational),
a signed infinity, or nan. -/
inductive PyVal where
  | finite : ℚ → PyVal
  | inf : Bool → PyVal
  | nan : PyVal
deriving Repr

/-- Digit scanner: `digitsUAux acc cnt l` consumes further digits (with underscores
allowed between digits, as per PEP 515) and returns the accumulated
value, the count of fraction-relevant digits and the unconsumed rest. -/
def digitsUAux (acc cnt : Nat) : List Char → Nat × Nat × List Char
  | '_' :: c :: rest =>
    if c.isDigit then digitsUAux (acc * 10 + (c.toNat - 48)) (cnt + 1) rest
    else (acc, cnt, '_' :: c :: rest)
  | c :: rest =>
    if c.isDigit then digitsUAux (acc * 10 + (c.toNat - 48)) (cnt + 1) rest
    else (acc, cnt, c :: rest)
  | [] => (acc, cnt, [])

/-- Parse a digit group (must start with a digit). -/
def digitsU : List Char → Option (Nat × Nat × List Char)
  | c :: rest =>
    if c.isDigit then some (digitsUAux (c.toNat - 48) 1 rest) else none
  | [] => none

/-- Parse the exponent that follows `e`/`E`: optional sign, then digits
consuming the whole rest. -/
def parseExp (l : List Char) : Option Int :=
  match l with
  | [] => none
  | c :: rest =>
    let sr : Bool × List Char :=
      if c = '+' then (false, rest)
      else if c = '-' then (true, rest)
      else (false, c :: rest)
    match digitsU sr.2 with
    | some (v, _, []) => some (if sr.1 then -(v : Int) else (v : Int))
    | _ => none

/-- Power `2 ^ e` in `ℚ` for an integer `e`, computed through `Nat.pow`. -/
def qpow2 (e : Int) : ℚ :=
  if 0 ≤ e then ((2 ^ e.toNat : ℕ) : ℚ) else 1 / ((2 ^ (-e).toNat : ℕ) : ℚ)

/-- Power `10 ^ e` in `ℚ` for an integer `e`, computed through `Nat.pow`. -/
def qpow10 (e : Int) : ℚ :=
  if 0 ≤ e then ((10 ^ e.toNat : ℕ) : ℚ) else 1 / ((10 ^ (-e).toNat : ℕ) : ℚ)

/-- Attach an optional exponent part to an exactly-parsed mantissa,
yielding the pair (mantissa, decimal exponent). -/
def finishExp (m : ℚ) (rest : List Char) : Option (ℚ × Int) :=
  match rest with
  | [] => some (m, 0)
  | 'e' :: r => (parseExp r).map (fun ex => (m, ex))
  | 'E' :: r => (parseExp r).map (fun ex => (m, ex))
  | _ => none

/-- Parse an unsigned decimal literal (`digits[.digits][exp]` or
`.digits[exp]`) to its exact mantissa and decimal exponent. -/
def parseDecimalCore (l : List Char) : Option (ℚ × Int) :=
  match digitsU l with
  | some (ip, _, rest) =>
    match rest with
    | '.' :: rest2 =>
      match digitsU rest2 with
      | some (fp, fcnt, rest3) =>
        finishExp ((ip : ℚ) + (fp : ℚ) / ((10 ^ fcnt : ℕ) : ℚ)) rest3
      | none => finishExp (ip : ℚ) rest2
    | _ => finishExp (ip : ℚ) rest
  | none =>
    match l with
    | '.' :: rest2 =>
      match digitsU rest2 with
      | some (fp, fcnt, rest3) =>
        finishExp ((fp : ℚ) / ((10 ^ fcnt : ℕ) : ℚ)) rest3
      | none => none
    | _ => none

/-- Fuel-driven floor of the base-2 logarithm (the fuel `n` itself is
always sufficient since the argument halves on every step). -/
def log2fuel : Nat → Nat → Nat
  | 0, _ => 0
  | fuel + 1, n => if 2 ≤ n then log2fuel fuel (n / 2) + 1 else 0

/-- Floor base-2 logarithm as `Nat.log2`, computable by kernel reduction. -/
def natLog2 (n : Nat) : Nat := log2fuel n n

/-- For `q > 0`, the exponent `e` with `2 ^ e ≤ q < 2 ^ (e + 1)`. -/
def floorLog2Q (q : ℚ) : Int :=
  let e0 : Int := (natLog2 q.num.natAbs : Int) - (natLog2 q.den : Int)
  if qpow2 (e0 + 1) ≤ q then e0 + 1
  else if q < qpow2 e0 then e0 - 1
  else e0

/-- Round a rational to the nearest integer, ties to even. -/
def roundHalfEvenQ (q : ℚ) : Int :=
  let n := q.floor
  let f := q - (n : ℚ)
  if f < 1 / 2 then n
  else if 1 / 2 < f then n + 1
  else if n % 2 = 0 then n else n + 1

/-- Round an exact rational to the nearest IEEE-754 double (round half
to even), overflowing to infinity beyond the double range. -/
def roundToDouble (q : ℚ) : PyVal :=
  if q = 0 then PyVal.finite 0
  else
    let neg : Bool := q < 0
    let aq := |q|
    let e := floorLog2Q aq
    if e < -1022 then
      let m := roundHalfEvenQ (aq * qpow2 1074)
      PyVal.finite ((if neg then -1 else 1) * (m : ℚ) * qpow2 (-1074))
    else
      let m := roundHalfEvenQ (aq * qpow2 (52 - e))
      let m' : Int := if m = 2 ^ 53 then 2 ^ 52 else m
      let e' : Int := if m = 2 ^ 53 then e + 1 else e
      if 1023 < e' then PyVal.inf neg
      else PyVal.finite ((if neg then -1 else 1) * (m' : ℚ) * qpow2 (e' - 52))

/-- The double nearest to `m * 10 ^ ex`.  Before exponentiating, a
certain overflow (value provably beyond the largest double) or a
certain underflow (value provably below half the smallest subnormal) is
detected from crude base-2 magnitude bounds, so that astronomic decimal
exponents need not be expanded: `2 ^ (3 e) ≤ 10 ^ e` for `e ≥ 0` and
`10 ^ e ≤ 2 ^ (3 e)` for `e ≤ 0`, `|m| > 2 ^ (-(ld + 1))` and
`|m| < 2 ^ (ln + 1)` where `ln`/`ld` are the bit lengths of numerator
and denominator. -/
def decimalToPyVal (m : ℚ) (ex : Int) : PyVal :=
  if m = 0 then PyVal.finite 0
  else
    let ln : Int := natLog2 m.num.natAbs
    let ld : Int := natLog2 m.den
    if 1026 + ld ≤ 3 * ex then PyVal.inf (m < 0)
    else if ln + 3 * ex ≤ -1077 then PyVal.finite 0
    else roundToDouble (m * qpow10 ex)

/-- Python `float(s)` over ASCII strings: `none` models `ValueError`. -/
def pyFloatOfString (s : String) : Option PyVal :=
  let l := stripWs s.toList
  let sl : Bool × List Char :=
    match l with
    | '+' :: r => (false, r)
    | '-' :: r => (true, r)
    | _ => (false, l)
  let lower := sl.2.map Char.toLower
  if lower = "inf".toList || lower = "infinity".toList then some (PyVal.inf sl.1)
  else if lower = "nan".toList then some PyVal.nan
  else
    match parseDecimalCore sl.2 with
    | some me => some (decimalToPyVal (if sl.1 then -me.1 else me.1) me.2)
    | none => none

/-- The character `'0'`–`'9'` for a digit value `n ≤ 9`. -/
def digitChar (n : Nat) : Char := Char.ofNat (48 + n)

/-- Formatting a Python float value with `%.2f`: round the exact double value
to two decimal places (ties to even, as C's `%.2f` does on the exact
binary value) and print sign, integer part, point and two digits. -/
def pyFormatF2 : PyVal → String
  | PyVal.finite q =>
    let n : Int := roundHalfEvenQ (q * 100)
    let neg : Bool := q < 0
    let a : Nat := n.natAbs
    (if neg then "-" else "") ++ toString (a / 100) ++ "." ++
      String.mk [digitChar (a % 100 / 10), digitChar (a % 10)]
  | PyVal.inf false => "inf"
  | PyVal.inf true => "-inf"
  | PyVal.nan => "nan"

/-- The price-formatting step of `customize_template` (lines 492–497):
`try float(price), format to two decimals, except ValueError pass`. -/
def formatPrice (price : String) : String :=
  match pyFloatOfString price with
  | some v => pyFormatF2 v
  | none => price

/-! ## User input and conditional data (`get_user_input`,
`get_receiving_note_categories`) -/

/-- The dict returned by `get_user_input` (lines 293–306).  All fields
are strings except `quantity` (an int) and `oclc_number` (a string or
Python `None`, modelled as `Option`). -/
structure UserInput where
  vendor_code : String
  vendor_account : String
  title : String
  author : String
  price : String
  vendor_reference_number : String
  isbn : String
  publisher : String
  publication_year : String
  quantity : Int
  reporting_code : String
  oclc_number : Option String
deriving Repr

/-- The `interested_user` entry of the conditional-data dict
(lines 361–365). -/
structure InterestedUser where
  user_id : String
  notify : Bool
  hold : Bool
deriving Repr

/-- The conditional-data dict built by `get_receiving_note_categories`
(lines 346–379): each field is `some` exactly when the corresponding
key is present in the dict. -/
structure ConditionalData where
  interested_user : Option InterestedUser
  additional_notes : Option String
  reserve_note : Option String
deriving Repr

/-! ## The merge: `customize_template` (lines 441–562)

The Python function mutates a deep copy of the template dict and can
raise when the template lacks the conventional nested shapes (e.g. a
missing or non-dict `vendor` raises `KeyError`/`TypeError` at
`po_data['vendor']['value'] = ...`).  The embedding returns `none`
exactly at those raise points.  `datetime.now()` is impure, so the
already-formatted expected receipt date is passed as an argument. -/

/-- Nested assignment `d[k1][k2] = v`: requires `k1` to be bound to a dict (otherwise the
Python code raises `KeyError` on the lookup or `TypeError` on the item
assignment). -/
def setInner (kvs : Kvs) (k1 k2 : String) (v : Json) : Option Kvs :=
  match getKey kvs k1 with
  | some (Json.obj inner) => some (setKey kvs k1 (Json.obj (setKey inner k2 v)))
  | _ => none

/-- Nested assignment `d[k1][0][k2] = v`: requires `k1` to be bound to a list whose first
element is a dict (anything else raises in Python). -/
def setArr0 (kvs : Kvs) (k1 k2 : String) (v : Json) : Option Kvs :=
  match getKey kvs k1 with
  | some (Json.arr (Json.obj inner :: rest)) =>
    some (setKey kvs k1 (Json.arr (Json.obj (setKey inner k2 v) :: rest)))
  | _ => none

/-- Vendor information (lines 464–466):
`po_data['vendor']['value'] = vendor_code;
po_data['vendor_account'] = vendor_account`. -/
def stepVendor (kvs : Kvs) (ui : UserInput) : Option Kvs :=
  (setInner kvs "vendor" "value" (Json.str ui.vendor_code)).map
    (fun kvs1 => setKey kvs1 "vendor_account" (Json.str ui.vendor_account))

/-- Line 469–470: create `resource_metadata` when absent. -/
def ensureRM (kvs : Kvs) : Kvs :=
  if hasKey kvs "resource_metadata" then kvs
  else setKey kvs "resource_metadata" (Json.obj [])

/-- The successive item assignments into `po_data['resource_metadata']`
(lines 472–488), fused on the inner dict: title always; author, isbn,
publisher, publication_year only when truthy (non-empty); the OCLC
number as a single-element `system_control_number` list when truthy. -/
def bibFields (rm : Kvs) (ui : UserInput) : Kvs :=
  let rm1 := setKey rm "title" (Json.str ui.title)
  let rm2 := if ui.author ≠ "" then setKey rm1 "author" (Json.str ui.author) else rm1
  let rm3 := if ui.isbn ≠ "" then setKey rm2 "isbn" (Json.str ui.isbn) else rm2
  let rm4 := if ui.publisher ≠ "" then setKey rm3 "publisher" (Json.str ui.publisher) else rm3
  let rm5 :=
    if ui.publication_year ≠ "" then
      setKey rm4 "publication_year" (Json.str ui.publication_year)
    else rm4
  match ui.oclc_number with
  | some s =>
    if s ≠ "" then setKey rm5 "system_control_number" (Json.arr [Json.str s]) else rm5
  | none => rm5

/-- Bibliographic metadata (lines 468–488): ensure the sub-dict exists,
then apply `bibFields` to it (fails when `resource_metadata` is bound
to a non-dict value, as the item assignments would raise). -/
def stepBib (kvs : Kvs) (ui : UserInput) : Option Kvs :=
  let kvs1 := ensureRM kvs
  match getKey kvs1 "resource_metadata" with
  | some (Json.obj rm) => some (setKey kvs1 "resource_metadata" (Json.obj (bibFields rm ui)))
  | _ => none

/-- The nested amount object with the formatted price under `sum` and
the currency code fixed to "USD", written at lines 499–502 and 506–509. -/
def priceAmount (price : String) : Json :=
  Json.obj [("sum", Json.str (formatPrice price)),
            ("currency", Json.obj [("value", Json.str "USD")])]

/-- Pricing (lines 490–509): set `price`, then propagate the same
amount into `fund_distribution[0]['amount']` when the field is present
and truthy. -/
def stepPrice (kvs : Kvs) (ui : UserInput) : Option Kvs :=
  let kvs1 := setKey kvs "price" (priceAmount ui.price)
  match getKey kvs1 "fund_distribution" with
  | some fd =>
    if fd.truthy then setArr0 kvs1 "fund_distribution" "amount" (priceAmount ui.price)
    else some kvs1
  | none => some kvs1

/-- Order details (lines 511–517): vendor reference when truthy, then
`location[0]['quantity']` when `location` is present and truthy. -/
def stepOrder (kvs : Kvs) (ui : UserInput) : Option Kvs :=
  let kvs1 :=
    if ui.vendor_reference_number ≠ "" then
      setKey kvs "vendor_reference_number" (Json.str ui.vendor_reference_number)
    else kvs
  match getKey kvs1 "location" with
  | some loc =>
    if loc.truthy then setArr0 kvs1 "location" "quantity" (Json.num ui.quantity)
    else some kvs1
  | none => some kvs1

/-- The fallible first half of `customize_template`: deep copy, strip
template metadata, vendor, bibliographic, pricing and order details
(lines 457–517).  A non-dict template fails: `po_data.pop(...)` would
raise on a JSON array or scalar. -/
def customizeFront (template : Json) (ui : UserInput) : Option Kvs :=
  match template with
  | Json.obj kvs0 =>
    let kvs1 := popKey (popKey kvs0 "_description") "_template_version"
    match stepVendor kvs1 ui with
    | none => none
    | some kvs2 =>
      match stepBib kvs2 ui with
      | none => none
      | some kvs3 =>
        match stepPrice kvs3 ui with
        | none => none
        | some kvs4 => stepOrder kvs4 ui
  | _ => none

/-- The note objects built at lines 528–534: one entry for truthy
`additional_notes`, then one entry for truthy `reserve_note` with the
literal `"Reserve Note: "` prepended. -/
def noteEntries (cd : ConditionalData) : List Json :=
  (match cd.additional_notes with
   | some s => if s ≠ "" then [Json.obj [("note_text", Json.str s)]] else []
   | none => []) ++
  (match cd.reserve_note with
   | some s =>
     if s ≠ "" then [Json.obj [("note_text", Json.str ("Reserve Note: " ++ s))]] else []
   | none => [])

/-- The single-element `interested_user` list written at lines 542–548. -/
def interestedUserJson (u : InterestedUser) : Json :=
  Json.arr [Json.obj [("primary_id", Json.str u.user_id),
                      ("notify_receiving_activation", Json.bool u.notify),
                      ("hold_item", Json.bool u.hold),
                      ("notify_renewal", Json.bool false),
                      ("notify_cancel", Json.bool false)]]

/-- The infallible second half of `customize_template` (lines 519–562):
receiving note, notes list, interested user, expected receipt date and
reporting code. -/
def customizeConditional (kvs : Kvs) (ui : UserInput) (receiving_categories : String)
    (cd : ConditionalData) (expected_receipt_date : String) : Kvs :=
  let kvs1 :=
    if receiving_categories ≠ "None" then
      setKey kvs "receiving_note" (Json.str receiving_categories)
    else setKey kvs "receiving_note" (Json.str "")
  let notes := noteEntries cd
  let kvs2 := if notes.isEmpty then kvs1 else setKey kvs1 "note" (Json.arr notes)
  let kvs3 :=
    match cd.interested_user with
    | some u => setKey kvs2 "interested_user" (interestedUserJson u)
    | none => popKey kvs2 "interested_user"
  let kvs4 := setKey kvs3 "expected_receipt_date" (Json.str expected_receipt_date)
  if ui.reporting_code ≠ "" then setKey kvs4 "reporting_code" (Json.str ui.reporting_code)
  else kvs4

/-- Merge `customize_template(template, user_input, receiving_categories,
conditional_data)` (lines 441–562), with the formatted expected receipt
date passed in for the impure `datetime.now() + timedelta(days=30)`.
`none` models the function raising an exception. -/
def customize_template (template : Json) (user_input : UserInput)
    (receiving_categories : String) (conditional_data : ConditionalData)
    (expected_receipt_date : String) : Option Kvs :=
  (customizeFront template user_input).map
    (fun kvs => customizeConditional kvs user_input receiving_categories
      conditional_data expected_receipt_date)

/-! ## Filename generation: `generate_filename` (lines 564–589) -/

/-- A wall-clock timestamp for `datetime.now()`; Python's `datetime`
guarantees `1 ≤ year ≤ 9999`, `1 ≤ month ≤ 12`, `1 ≤ day ≤ 31`,
`hour ≤ 23`, `minute, second ≤ 59`. -/
structure DateTime where
  year : Nat
  month : Nat
  day : Nat
  hour : Nat
  minute : Nat
  second : Nat
deriving Repr

/-- Two-digit zero-padded field (`%m`, `%d`, `%H`, `%M`, `%S`); the
`% 10` truncations are invisible for the in-range values `datetime`
produces. -/
def natDigits2 (n : Nat) : List Char :=
  [digitChar (n / 10 % 10), digitChar (n % 10)]

/-- Four-digit zero-padded field (`%Y`; `datetime` years are ≤ 9999). -/
def natDigits4 (n : Nat) : List Char :=
  [digitChar (n / 1000 % 10), digitChar (n / 100 % 10),
   digitChar (n / 10 % 10), digitChar (n % 10)]

/-- Timestamp `datetime.now().strftime('%Y%m%d_%H%M%S')` (line 583). -/
def strftimeCompact (dt : DateTime) : String :=
  String.mk (natDigits4 dt.year ++ natDigits2 dt.month ++ natDigits2 dt.day ++
    ['_'] ++ natDigits2 dt.hour ++ natDigits2 dt.minute ++ natDigits2 dt.second)

/-- ASCII regex `\w`: word characters. -/
def isWordChar (c : Char) : Bool :=
  c.isAlpha || c.isDigit || c = '_'

/-- Substitution `re.sub(r'\s+', '_', s)`: replace every maximal whitespace run with
a single underscore (`prevSpace` tracks an open run). -/
def collapseWs (prevSpace : Bool) : List Char → List Char
  | [] => []
  | c :: rest =>
    if isPyWs c then
      if prevSpace then collapseWs true rest else '_' :: collapseWs true rest
    else c :: collapseWs false rest

/-- The sanitized title part (lines 578–580):
`re.sub(r'[^\w\s-]', '', title)`, then strip, collapse whitespace to
underscores, and truncate to 30 characters. -/
def clean_title_of (title : String) : List Char :=
  let l1 := title.toList.filter (fun c => isWordChar c || isPyWs c || c = '-')
  (collapseWs false (stripWs l1)).take 30

/-- The sanitized vendor-reference part (line 587):
`re.sub(r'[^\w-]', '', vendor_ref)[:15]`. -/
def clean_vendor_ref_of (vendor_ref : String) : List Char :=
  (vendor_ref.toList.filter (fun c => isWordChar c || c = '-')).take 15

/-- Filename builder `generate_filename(user_input)` (lines 564–589).  The function
reads `user_input.get('vendor_reference_number', 'noref')`, so the
vendor reference is modelled as an optional dict entry; `datetime.now()`
is passed in as a `DateTime`. -/
def generate_filename (title : String) (vendor_reference_number : Option String)
    (now : DateTime) : String :=
  let clean_title := clean_title_of title
  let timestamp := strftimeCompact now
  let vendor_ref := vendor_reference_number.getD "noref"
  let clean_vendor_ref := clean_vendor_ref_of vendor_ref
  "generic_" ++ String.mk clean_title ++ "_" ++ String.mk clean_vendor_ref ++
    "_" ++ timestamp ++ ".json"

/-- Bibliographic lookup `d['resource_metadata'][k]` used to state the
bibliographic claims. -/
def getBib (kvs : Kvs) (k : String) : Option Json :=
  match getKey kvs "resource_metadata" with
  | some (Json.obj rm) => getKey rm k
  | _ => none

/-- A sample template of the conventional shape, for witnesses. -/
def sampleTemplate : Kvs :=
  [("_description", Json.str "Sample"),
   ("vendor", Json.obj [("value", Json.str "old-vendor")]),
   ("vendor_account", Json.str "old-account"),
   ("material_type", Json.obj [("value", Json.str "BOOK")]),
   ("fund_distribution", Json.arr [Json.obj [("amount", Json.str "0")],
      Json.obj [("fund_code", Json.str "F2")]]),
   ("location", Json.arr [Json.obj [("quantity", Json.num 9)]]),
   ("note", Json.str "template note"),
   ("interested_user", Json.arr [])]

/-- A sample user input, for witnesses. -/
def sampleUI : UserInput :=
  ⟨"hacky-m", "hacky-m", "Learning Go", "", "25", "", "", "", "", 1, "", none⟩

/-- Conditional data with no keys, for witnesses. -/
def cdEmpty : ConditionalData := ⟨none, none, none⟩

/-- Conditional data with both note texts populated, for witnesses. -/
def cdNotes : ConditionalData := ⟨none, some "extra note", some "course reserve"⟩

/-- Conditional data with an interested user, for witnesses. -/
def cdUser : ConditionalData := ⟨some ⟨"123456789", true, false⟩, none, none⟩

/-- A decimal numeral (2 followed by 308 zeros) beyond the range of
IEEE-754 doubles: `float()` parses it to `inf`. -/
def bigPrice : String := String.mk ('2' :: List.replicate 308 '0')

/-- User input whose price is a decimal numeral beyond double range. -/
def uiBig : UserInput :=
  ⟨"hacky-m", "hacky-m", "Learning Go", "", bigPrice, "", "", "", "", 1, "", none⟩

/-- A minimal template: only the vendor mapping the merge requires. -/
def c7Template : Kvs :=
  [("vendor", Json.obj [("value", Json.str "v")]),
   ("material_type", Json.obj [("value", Json.str "BOOK")])]

theorem getKey_setKey_self (kvs : Kvs) (k : String) (v : Json) :
    getKey (setKey kvs k v) k = some v := by
  induction kvs with
  | nil => simp [setKey, getKey]
  | cons hd tl ih =>
    obtain ⟨k', v'⟩ := hd
    by_cases h : k' = k
    · simp [setKey, getKey, h]
    · simp [setKey, getKey, h, ih]

theorem getKey_setKey_ne (kvs : Kvs) (k k' : String) (v : Json) (h : k ≠ k') :
    getKey (setKey kvs k v) k' = getKey kvs k' := by
  induction kvs with
  | nil => simp [setKey, getKey, h]
  | cons hd tl ih =>
    obtain ⟨k₀, v₀⟩ := hd
    by_cases h₀ : k₀ = k
    · subst h₀; simp [setKey, getKey, h]
    · simp [setKey, getKey, h₀, ih]

theorem getKey_popKey_self (kvs : Kvs) (k : String) :
    getKey (popKey kvs k) k = none := by
  induction kvs with
  | nil => simp [popKey, getKey]
  | cons hd tl ih =>
    obtain ⟨k₀, v₀⟩ := hd
    by_cases h₀ : k₀ = k
    · simpa [popKey, getKey, h₀] using ih
    · simp [popKey, getKey, h₀, ih]

theorem getKey_popKey_ne (kvs : Kvs) (k k' : String) (h : k ≠ k') :
    getKey (popKey kvs k) k' = getKey kvs k' := by
  induction kvs with
  | nil => simp [popKey, getKey]
  | cons hd tl ih =>
    obtain ⟨k₀, v₀⟩ := hd
    by_cases h₀ : k₀ = k
    · subst h₀
      have hne : k₀ ≠ k' := h
      simp [popKey, getKey, hne, ih]
    · simp [popKey, getKey, h₀, ih]

/-! ## Lemmas about the merge steps -/

theorem truthy_arr_cons (x : Json) (rest : List Json) :
    (Json.arr (x :: rest)).truthy = true := by
  simp [Json.truthy]

theorem setInner_inv (kvs : Kvs) (k1 k2 : String) (v : Json) (out : Kvs)
    (h : setInner kvs k1 k2 v = some out) :
    ∃ inner, getKey kvs k1 = some (Json.obj inner) ∧
      out = setKey kvs k1 (Json.obj (setKey inner k2 v)) := by
  unfold setInner at h
  cases hg : getKey kvs k1 with
  | none => rw [hg] at h; exact absurd h (by simp)
  | some j =>
    cases j with
    | obj inner =>
      rw [hg] at h
      exact ⟨inner, rfl, by simpa using h.symm⟩
    | null => rw [hg] at h; exact absurd h (by simp)
    | bool b => rw [hg] at h; exact absurd h (by simp)
    | num n => rw [hg] at h; exact absurd h (by simp)
    | str s => rw [hg] at h; exact absurd h (by simp)
    | arr xs => rw [hg] at h; exact absurd h (by simp)

theorem setArr0_inv (kvs : Kvs) (k1 k2 : String) (v : Json) (out : Kvs)
    (h : setArr0 kvs k1 k2 v = some out) :
    ∃ inner rest, getKey kvs k1 = some (Json.arr (Json.obj inner :: rest)) ∧
      out = setKey kvs k1 (Json.arr (Json.obj (setKey inner k2 v) :: rest)) := by
  unfold setArr0 at h
  cases hg : getKey kvs k1 with
  | none => rw [hg] at h; exact absurd h (by simp)
  | some j =>
    rw [hg] at h
    match j with
    | Json.arr (Json.obj inner :: rest) =>
      exact ⟨inner, rest, rfl, by simpa using h.symm⟩
    | Json.null => exact absurd h (by simp)
    | Json.bool b => exact absurd h (by simp)
    | Json.num n => exact absurd h (by simp)
    | Json.str s => exact absurd h (by simp)
    | Json.obj o => exact absurd h (by simp)
    | Json.arr [] => exact absurd h (by simp)
    | Json.arr (Json.null :: rest) => exact absurd h (by simp)
    | Json.arr (Json.bool b :: rest) => exact absurd h (by simp)
    | Json.arr (Json.num n :: rest) => exact absurd h (by simp)
    | Json.arr (Json.str s :: rest) => exact absurd h (by simp)
    | Json.arr (Json.arr a :: rest) => exact absurd h (by simp)

theorem stepVendor_inv (kvs : Kvs) (ui : UserInput) (out : Kvs)
    (h : stepVendor kvs ui = some out) :
    ∃ inner, getKey kvs "vendor" = some (Json.obj inner) ∧
      out = setKey (setKey kvs "vendor"
        (Json.obj (setKey inner "value" (Json.str ui.vendor_code))))
        "vendor_account" (Json.str ui.vendor_account) := by
  unfold stepVendor at h
  cases hs : setInner kvs "vendor" "value" (Json.str ui.vendor_code) with
  | none => rw [hs] at h; exact absurd h (by simp)
  | some mid =>
    rw [hs] at h
    obtain ⟨inner, hg, hmid⟩ := setInner_inv _ _ _ _ _ hs
    exact ⟨inner, hg, by simp at h; rw [← h, hmid]⟩

theorem stepVendor_frame (kvs : Kvs) (ui : UserInput) (out : Kvs) (k : String)
    (h : stepVendor kvs ui = some out)
    (h1 : "vendor" ≠ k) (h2 : "vendor_account" ≠ k) :
    getKey out k = getKey kvs k := by
  obtain ⟨inner, hg, rfl⟩ := stepVendor_inv _ _ _ h
  rw [getKey_setKey_ne _ _ _ _ h2, getKey_setKey_ne _ _ _ _ h1]

theorem ensureRM_frame (kvs : Kvs) (k : String) (h : "resource_metadata" ≠ k) :
    getKey (ensureRM kvs) k = getKey kvs k := by
  unfold ensureRM
  split
  · rfl
  · rw [getKey_setKey_ne _ _ _ _ h]

theorem stepBib_inv (kvs : Kvs) (ui : UserInput) (out : Kvs)
    (h : stepBib kvs ui = some out) :
    ∃ rm, getKey (ensureRM kvs) "resource_metadata" = some (Json.obj rm) ∧
      out = setKey (ensureRM kvs) "resource_metadata" (Json.obj (bibFields rm ui)) := by
  unfold stepBib at h
  simp only [] at h
  cases hg : getKey (ensureRM kvs) "resource_metadata" with
  | none => rw [hg] at h; exact absurd h (by simp)
  | some j =>
    rw [hg] at h
    match j with
    | Json.obj rm => exact ⟨rm, rfl, by simpa using h.symm⟩
    | Json.null => exact absurd h (by simp)
    | Json.bool b => exact absurd h (by simp)
    | Json.num n => exact absurd h (by simp)
    | Json.str s => exact absurd h (by simp)
    | Json.arr a => exact absurd h (by simp)

theorem stepBib_frame (kvs : Kvs) (ui : UserInput) (out : Kvs) (k : String)
    (h : stepBib kvs ui = some out) (h1 : "resource_metadata" ≠ k) :
    getKey out k = getKey kvs k := by
  obtain ⟨rm, hg, rfl⟩ := stepBib_inv _ _ _ h
  rw [getKey_setKey_ne _ _ _ _ h1, ensureRM_frame _ _ h1]

theorem stepPrice_price (kvs : Kvs) (ui : UserInput) (out : Kvs)
    (h : stepPrice kvs ui = some out) :
    getKey out "price" = some (priceAmount ui.price) := by
  unfold stepPrice at h
  simp only [] at h
  cases hg : getKey (setKey kvs "price" (priceAmount ui.price)) "fund_distribution" with
  | none =>
    rw [hg] at h
    simp at h
    rw [← h, getKey_setKey_self]
  | some fd =>
    rw [hg] at h
    simp only [] at h
    by_cases ht : fd.truthy
    · rw [if_pos ht] at h
      obtain ⟨inner, rest, hg2, rfl⟩ := setArr0_inv _ _ _ _ _ h
      rw [getKey_setKey_ne _ _ _ _ (by decide), getKey_setKey_self]
    · rw [if_neg ht] at h
      simp at h
      rw [← h, getKey_setKey_self]

theorem stepPrice_frame (kvs : Kvs) (ui : UserInput) (out : Kvs) (k : String)
    (h : stepPrice kvs ui = some out)
    (h1 : "price" ≠ k) (h2 : "fund_distribution" ≠ k) :
    getKey out k = getKey kvs k := by
  unfold stepPrice at h
  simp only [] at h
  cases hg : getKey (setKey kvs "price" (priceAmount ui.price)) "fund_distribution" with
  | none =>
    rw [hg] at h
    simp at h
    rw [← h, getKey_setKey_ne _ _ _ _ h1]
  | some fd =>
    rw [hg] at h
    simp only [] at h
    by_cases ht : fd.truthy
    · rw [if_pos ht] at h
      obtain ⟨inner, rest, hg2, rfl⟩ := setArr0_inv _ _ _ _ _ h
      rw [getKey_setKey_ne _ _ _ _ h2, getKey_setKey_ne _ _ _ _ h1]
    · rw [if_neg ht] at h
      simp at h
      rw [← h, getKey_setKey_ne _ _ _ _ h1]

theorem stepOrder_frame (kvs : Kvs) (ui : UserInput) (out : Kvs) (k : String)
    (h : stepOrder kvs ui = some out)
    (h1 : "vendor_reference_number" ≠ k) (h2 : "location" ≠ k) :
    getKey out k = getKey kvs k := by
  unfold stepOrder at h
  simp only [] at h
  set kvs1 := if ui.vendor_reference_number ≠ "" then
      setKey kvs "vendor_reference_number" (Json.str ui.vendor_reference_number)
    else kvs with hkvs1
  have hframe1 : getKey kvs1 k = getKey kvs k := by
    rw [hkvs1]
    split
    · rw [getKey_setKey_ne _ _ _ _ h1]
    · rfl
  cases hg : getKey kvs1 "location" with
  | none =>
    rw [hg] at h
    simp at h
    rw [← h, hframe1]
  | some loc =>
    rw [hg] at h
    simp only [] at h
    by_cases ht : loc.truthy
    · rw [if_pos ht] at h
      obtain ⟨inner, rest, hg2, rfl⟩ := setArr0_inv _ _ _ _ _ h
      rw [getKey_setKey_ne _ _ _ _ h2, hframe1]
    · rw [if_neg ht] at h
      simp at h
      rw [← h, hframe1]

theorem customizeFront_inv (t : Json) (ui : UserInput) (out : Kvs)
    (h : customizeFront t ui = some out) :
    ∃ kvs0 kvs2 kvs3 kvs4, t = Json.obj kvs0 ∧
      stepVendor (popKey (popKey kvs0 "_description") "_template_version") ui = some kvs2 ∧
      stepBib kvs2 ui = some kvs3 ∧
      stepPrice kvs3 ui = some kvs4 ∧
      stepOrder kvs4 ui = some out := by
  cases t with
  | obj kvs0 =>
    unfold customizeFront at h
    simp only [] at h
    cases h2 : stepVendor (popKey (popKey kvs0 "_description") "_template_version") ui with
    | none => rw [h2] at h; exact absurd h (by simp)
    | some kvs2 =>
      rw [h2] at h
      simp only [] at h
      cases h3 : stepBib kvs2 ui with
      | none => rw [h3] at h; exact absurd h (by simp)
      | some kvs3 =>
        rw [h3] at h
        simp only [] at h
        cases h4 : stepPrice kvs3 ui with
        | none => rw [h4] at h; exact absurd h (by simp)
        | some kvs4 =>
          rw [h4] at h
          simp only [] at h
          exact ⟨kvs0, kvs2, kvs3, kvs4, rfl, h2, h3, h4, h⟩
  | null => exact absurd h (by simp [customizeFront])
  | bool b => exact absurd h (by simp [customizeFront])
  | num n => exact absurd h (by simp [customizeFront])
  | str s => exact absurd h (by simp [customizeFront])
  | arr xs => exact absurd h (by simp [customizeFront])

/-- Keys the fallible first half never touches keep their template value. -/
theorem customizeFront_frame (kvs0 : Kvs) (ui : UserInput) (out : Kvs) (k : String)
    (h : customizeFront (Json.obj kvs0) ui = some out)
    (hd : "_description" ≠ k) (htv : "_template_version" ≠ k)
    (hv : "vendor" ≠ k) (hva : "vendor_account" ≠ k)
    (hrm : "resource_metadata" ≠ k) (hp : "price" ≠ k)
    (hfd : "fund_distribution" ≠ k) (hvr : "vendor_reference_number" ≠ k)
    (hl : "location" ≠ k) :
    getKey out k = getKey kvs0 k := by
  obtain ⟨kvs0', kvs2, kvs3, kvs4, heq, h2, h3, h4, h5⟩ := customizeFront_inv _ _ _ h
  cases heq
  rw [stepOrder_frame _ _ _ _ h5 hvr hl, stepPrice_frame _ _ _ _ h4 hp hfd,
    stepBib_frame _ _ _ _ h3 hrm, stepVendor_frame _ _ _ _ h2 hv hva,
    getKey_popKey_ne _ _ _ htv, getKey_popKey_ne _ _ _ hd]

/-! ## Lemmas about the bibliographic fields -/

theorem bibFields_title (rm : Kvs) (ui : UserInput) :
    getKey (bibFields rm ui) "title" = some (Json.str ui.title) := by
  unfold bibFields
  simp only []
  cases ui.oclc_number with
  | none =>
    repeat' split
    all_goals
      repeat rw [getKey_setKey_ne _ _ _ _ (by decide)]
    all_goals rw [getKey_setKey_self]
  | some s =>
    repeat' split
    all_goals
      repeat rw [getKey_setKey_ne _ _ _ _ (by decide)]
    all_goals rw [getKey_setKey_self]

theorem getKey_setKey (kvs : Kvs) (k k' : String) (v : Json) :
    getKey (setKey kvs k v) k' = if k = k' then some v else getKey kvs k' := by
  by_cases h : k = k'
  · subst h; simp [getKey_setKey_self]
  · simp [h, getKey_setKey_ne _ _ _ _ h]

theorem getKey_popKey (kvs : Kvs) (k k' : String) :
    getKey (popKey kvs k) k' = if k = k' then none else getKey kvs k' := by
  by_cases h : k = k'
  · subst h; simp [getKey_popKey_self]
  · simp [h, getKey_popKey_ne _ _ _ h]

theorem bibFields_author (rm : Kvs) (ui : UserInput) :
    getKey (bibFields rm ui) "author" =
      (if ui.author = "" then getKey rm "author" else some (Json.str ui.author)) := by
  unfold bibFields
  simp only []
  cases ho : ui.oclc_number with
  | none =>
    by_cases ha : ui.author = "" <;> by_cases hi : ui.isbn = "" <;>
      by_cases hp : ui.publisher = "" <;> by_cases hy : ui.publication_year = "" <;>
      simp [ha, hi, hp, hy, getKey_setKey]
  | some s =>
    by_cases hs : s = "" <;> by_cases ha : ui.author = "" <;> by_cases hi : ui.isbn = "" <;>
      by_cases hp : ui.publisher = "" <;> by_cases hy : ui.publication_year = "" <;>
      simp [hs, ha, hi, hp, hy, getKey_setKey]

theorem bibFields_isbn (rm : Kvs) (ui : UserInput) :
    getKey (bibFields rm ui) "isbn" =
      (if ui.isbn = "" then getKey rm "isbn" else some (Json.str ui.isbn)) := by
  unfold bibFields
  simp only []
  cases ho : ui.oclc_number with
  | none =>
    by_cases ha : ui.author = "" <;> by_cases hi : ui.isbn = "" <;>
      by_cases hp : ui.publisher = "" <;> by_cases hy : ui.publication_year = "" <;>
      simp [ha, hi, hp, hy, getKey_setKey]
  | some s =>
    by_cases hs : s = "" <;> by_cases ha : ui.author = "" <;> by_cases hi : ui.isbn = "" <;>
      by_cases hp : ui.publisher = "" <;> by_cases hy : ui.publication_year = "" <;>
      simp [hs, ha, hi, hp, hy, getKey_setKey]

theorem bibFields_publisher (rm : Kvs) (ui : UserInput) :
    getKey (bibFields rm ui) "publisher" =
      (if ui.publisher = "" then getKey rm "publisher" else some (Json.str ui.publisher)) := by
  unfold bibFields
  simp only []
  cases ho : ui.oclc_number with
  | none =>
    by_cases ha : ui.author = "" <;> by_cases hi : ui.isbn = "" <;>
      by_cases hp : ui.publisher = "" <;> by_cases hy : ui.publication_year = "" <;>
      simp [ha, hi, hp, hy, getKey_setKey]
  | some s =>
    by_cases hs : s = "" <;> by_cases ha : ui.author = "" <;> by_cases hi : ui.isbn = "" <;>
      by_cases hp : ui.publisher = "" <;> by_cases hy : ui.publication_year = "" <;>
      simp [hs, ha, hi, hp, hy, getKey_setKey]

theorem bibFields_publication_year (rm : Kvs) (ui : UserInput) :
    getKey (bibFields rm ui) "publication_year" =
      (if ui.publication_year = "" then getKey rm "publication_year"
       else some (Json.str ui.publication_year)) := by
  unfold bibFields
  simp only []
  cases ho : ui.oclc_number with
  | none =>
    by_cases ha : ui.author = "" <;> by_cases hi : ui.isbn = "" <;>
      by_cases hp : ui.publisher = "" <;> by_cases hy : ui.publication_year = "" <;>
      simp [ha, hi, hp, hy, getKey_setKey]
  | some s =>
    by_cases hs : s = "" <;> by_cases ha : ui.author = "" <;> by_cases hi : ui.isbn = "" <;>
      by_cases hp : ui.publisher = "" <;> by_cases hy : ui.publication_year = "" <;>
      simp [hs, ha, hi, hp, hy, getKey_setKey]

/-- With all optional user-input fields empty, only the title is written
into the bibliographic sub-dict. -/
theorem bibFields_empty (rm : Kvs) (ui : UserInput)
    (ha : ui.author = "") (hi : ui.isbn = "") (hp : ui.publisher = "")
    (hy : ui.publication_year = "") (ho : ui.oclc_number = none) :
    bibFields rm ui = setKey rm "title" (Json.str ui.title) := by
  unfold bibFields
  simp [ha, hi, hp, hy, ho]

/-- The bibliographic dict written by `stepBib` is `bibFields rm ui`
where `rm` is the template's bibliographic dict, or `[]` when the
template had none. -/
theorem stepBib_rm_value (kvs : Kvs) (ui : UserInput) (out : Kvs)
    (h : stepBib kvs ui = some out) :
    ∃ rm, getKey out "resource_metadata" = some (Json.obj (bibFields rm ui)) ∧
      ((getKey kvs "resource_metadata" = none ∧ rm = []) ∨
        getKey kvs "resource_metadata" = some (Json.obj rm)) := by
  obtain ⟨rm, hg, rfl⟩ := stepBib_inv _ _ _ h
  refine ⟨rm, by rw [getKey_setKey_self], ?_⟩
  unfold ensureRM at hg
  by_cases hh : hasKey kvs "resource_metadata"
  · rw [if_pos hh] at hg
    exact Or.inr hg
  · rw [if_neg hh] at hg
    rw [getKey_setKey_self] at hg
    simp only [Option.some.injEq, Json.obj.injEq] at hg
    refine Or.inl ⟨?_, hg.symm⟩
    unfold hasKey at hh
    exact Option.not_isSome_iff_eq_none.mp (by simpa using hh)

/-! ## Lemmas about the infallible second half -/

theorem cond_receiving_note (kvs : Kvs) (ui : UserInput) (cats : String)
    (cd : ConditionalData) (d : String) :
    getKey (customizeConditional kvs ui cats cd d) "receiving_note" =
      some (Json.str (if cats = "None" then "" else cats)) := by
  unfold customizeConditional
  simp only []
  cases hi : cd.interested_user <;>
    by_cases hrc : ui.reporting_code = "" <;>
    by_cases hn : (noteEntries cd).isEmpty <;>
    by_cases hc : cats = "None" <;>
    simp [hi, hrc, hn, hc, getKey_setKey, getKey_popKey]

theorem cond_note_set (kvs : Kvs) (ui : UserInput) (cats : String)
    (cd : ConditionalData) (d : String) (h : noteEntries cd ≠ []) :
    getKey (customizeConditional kvs ui cats cd d) "note" =
      some (Json.arr (noteEntries cd)) := by
  unfold customizeConditional
  simp only []
  have hn : (noteEntries cd).isEmpty = false := by
    cases hne : noteEntries cd with
    | nil => exact absurd hne h
    | cons a l => rfl
  cases hi : cd.interested_user <;>
    by_cases hrc : ui.reporting_code = "" <;>
    by_cases hc : cats = "None" <;>
    simp [hi, hrc, hn, hc, getKey_setKey, getKey_popKey]

theorem cond_note_frame (kvs : Kvs) (ui : UserInput) (cats : String)
    (cd : ConditionalData) (d : String) (h : noteEntries cd = []) :
    getKey (customizeConditional kvs ui cats cd d) "note" = getKey kvs "note" := by
  unfold customizeConditional
  simp only []
  cases hi : cd.interested_user <;>
    by_cases hrc : ui.reporting_code = "" <;>
    by_cases hc : cats = "None" <;>
    simp [hi, hrc, h, hc, getKey_setKey, getKey_popKey]

theorem cond_interested_some (kvs : Kvs) (ui : UserInput) (cats : String)
    (cd : ConditionalData) (d : String) (u : InterestedUser)
    (h : cd.interested_user = some u) :
    getKey (customizeConditional kvs ui cats cd d) "interested_user" =
      some (interestedUserJson u) := by
  unfold customizeConditional
  simp only []
  by_cases hrc : ui.reporting_code = "" <;>
    by_cases hn : (noteEntries cd).isEmpty <;>
    by_cases hc : cats = "None" <;>
    simp [h, hrc, hn, hc, getKey_setKey, getKey_popKey]

theorem cond_interested_none (kvs : Kvs) (ui : UserInput) (cats : String)
    (cd : ConditionalData) (d : String) (h : cd.interested_user = none) :
    getKey (customizeConditional kvs ui cats cd d) "interested_user" = none := by
  unfold customizeConditional
  simp only []
  by_cases hrc : ui.reporting_code = "" <;>
    by_cases hn : (noteEntries cd).isEmpty <;>
    by_cases hc : cats = "None" <;>
    simp [h, hrc, hn, hc, getKey_setKey, getKey_popKey]

theorem cond_frame (kvs : Kvs) (ui : UserInput) (cats : String)
    (cd : ConditionalData) (d : String) (k : String)
    (h1 : "receiving_note" ≠ k) (h2 : "note" ≠ k) (h3 : "interested_user" ≠ k)
    (h4 : "expected_receipt_date" ≠ k) (h5 : "reporting_code" ≠ k) :
    getKey (customizeConditional kvs ui cats cd d) k = getKey kvs k := by
  unfold customizeConditional
  simp only []
  cases hi : cd.interested_user <;>
    by_cases hrc : ui.reporting_code = "" <;>
    by_cases hn : (noteEntries cd).isEmpty <;>
    by_cases hc : cats = "None" <;>
    simp [hi, hrc, hn, hc, getKey_setKey, getKey_popKey, h1, h2, h3, h4, h5]

theorem customize_template_inv (t : Json) (ui : UserInput) (cats : String)
    (cd : ConditionalData) (d : String) (r : Kvs)
    (h : customize_template t ui cats cd d = some r) :
    ∃ kvs', customizeFront t ui = some kvs' ∧
      r = customizeConditional kvs' ui cats cd d := by
  unfold customize_template at h
  cases hf : customizeFront t ui with
  | none => rw [hf] at h; exact absurd h (by simp)
  | some kvs' =>
    rw [hf] at h
    simp at h
    exact ⟨kvs', rfl, h.symm⟩

/-- A selection of non-sentinel labels from the fixed enumeration never
joins to the sentinel string (every label is at least 4 characters and
the two-element join is at least 11). -/
theorem pyJoin_ne_none (selected : List String) (h0 : selected ≠ [])
    (h1 : "None" ∉ selected) (h2 : ∀ x ∈ selected, x ∈ categories) :
    pyJoin " | " selected ≠ "None" := by
  match selected with
  | [x] =>
    have hx := h2 x (by simp)
    have hxne : x ≠ "None" := fun hcontra => h1 (by simp [hcontra])
    simp only [categories, List.mem_cons, List.not_mem_nil, or_false] at hx
    rcases hx with rfl | rfl | rfl | rfl | rfl | rfl
    · exact absurd rfl hxne
    all_goals simp [pyJoin]
  | x :: y :: rest =>
    have hx := h2 x (by simp)
    have hxne : x ≠ "None" := fun hcontra => h1 (by simp [hcontra])
    have hx4 : 4 ≤ x.length := by
      simp only [categories, List.mem_cons, List.not_mem_nil, or_false] at hx
      rcases hx with rfl | rfl | rfl | rfl | rfl | rfl
      · exact absurd rfl hxne
      all_goals decide
    intro heq
    have hlen := congrArg String.length heq
    simp only [pyJoin, String.length_append] at hlen
    have h3 : (" | ").length = 3 := by decide
    have h4 : ("None").length = 4 := by decide
    omega

/-- C1.  For every category selection list, validation rejects the
empty list and any list containing "None" together with another label;
and in the merge, the "None" sentinel selection yields
`receiving_note = ""` while any other valid selection yields
`receiving_note` equal to the selected labels joined with the literal
separator `" | "` in the order selected. -/
theorem claim_c1_receiving_categories (selected : List String) (kvs : Kvs)
    (ui : UserInput) (cd : ConditionalData) (d : String) (r : Kvs) :
    validate_receiving_categories [] =
      VResult.invalid "Please select at least one category"
    ∧ ("None" ∈ selected → (∃ x ∈ selected, x ≠ "None") →
        validate_receiving_categories selected =
          VResult.invalid "Cannot select 'None' with other categories")
    ∧ (customize_template (Json.obj kvs) ui (receiving_category_string ["None"]) cd d
          = some r →
        getKey r "receiving_note" = some (Json.str ""))
    ∧ (validate_receiving_categories selected = VResult.valid →
        "None" ∉ selected → selected ≠ [] → (∀ x ∈ selected, x ∈ categories) →
        customize_template (Json.obj kvs) ui (receiving_category_string selected) cd d
          = some r →
        getKey r "receiving_note" = some (Json.str (pyJoin " | " selected))) := by
  refine ⟨by decide, ?_, ?_, ?_⟩
  · intro hmem hex
    obtain ⟨x, hx, hxne⟩ := hex
    have hlen : 1 < selected.length := by
      match selected, hmem, hx with
      | [a], hmem, hx =>
        have h1 : "None" = a := by simpa using hmem
        have h2 : x = a := by simpa using hx
        exact absurd (h2.trans h1.symm) hxne
      | a :: b :: tl, _, _ => simp
    have hne : ¬selected.isEmpty := by
      cases selected with
      | nil => simp at hlen
      | cons a tl => simp
    unfold validate_receiving_categories
    rw [if_neg (by simpa using hne), if_pos ⟨hmem, hlen⟩]
  · intro h
    obtain ⟨kvs', hf, rfl⟩ := customize_template_inv _ _ _ _ _ _ h
    have hs : receiving_category_string ["None"] = "None" := by decide
    rw [hs] at *
    rw [cond_receiving_note, if_pos rfl]
  · intro hv hnone hne hmem h
    have hs : receiving_category_string selected = pyJoin " | " selected := by
      unfold receiving_category_string
      have he : selected.isEmpty = false := by
        cases selected with
        | nil => exact absurd rfl hne
        | cons a tl => rfl
      have hc : selected.contains "None" = false := by
        simpa using hnone
      rw [he, hc]
      simp
    rw [hs] at h
    obtain ⟨kvs', hf, rfl⟩ := customize_template_inv _ _ _ _ _ _ h
    rw [cond_receiving_note, if_neg (pyJoin_ne_none selected hne hnone hmem)]

/-- C9.  ISBN validation accepts blank input, and otherwise accepts an
input exactly when, after removing all non-alphanumeric characters, the
remaining string has length exactly 10 or 13; in particular
"0-306-40615-2" passes and "12345" fails. -/
theorem claim_c9_validate_isbn :
    validate_isbn "" = VResult.valid
    ∧ validate_isbn "0-306-40615-2" = VResult.valid
    ∧ validate_isbn "12345" = VResult.invalid "ISBN should be 10 or 13 digits"
    ∧ ∀ s : String, validate_isbn s = VResult.valid ↔
        (stripWs s.toList = [] ∨ (s.toList.filter isAlnumChar).length = 10 ∨
          (s.toList.filter isAlnumChar).length = 13) := by
  refine ⟨by decide, by decide, by decide, fun s => ?_⟩
  unfold validate_isbn
  by_cases h1 : stripWs s.toList = []
  · rw [if_pos h1]
    exact iff_of_true rfl (Or.inl h1)
  · rw [if_neg h1]
    simp only []
    by_cases h2 : (s.toList.filter isAlnumChar).length = 10
    · rw [if_neg (fun hc => hc.1 h2)]
      exact iff_of_true rfl (Or.inr (Or.inl h2))
    · by_cases h3 : (s.toList.filter isAlnumChar).length = 13
      · rw [if_neg (fun hc => hc.2 h3)]
        exact iff_of_true rfl (Or.inr (Or.inr h3))
      · rw [if_pos ⟨h2, h3⟩]
        constructor
        · intro hcontra
          exact absurd hcontra (by simp)
        · rintro (hh | hh | hh)
          · exact absurd hh h1
          · exact absurd hh h2
          · exact absurd hh h3

theorem digitChar_isDigit (n : Nat) (h : n ≤ 9) : (digitChar n).isDigit = true := by
  interval_cases n <;> decide

/-- Formatting a finite double always produces exactly two digits after
the decimal point. -/
theorem pyFormatF2_finite_shape (q : ℚ) :
    ∃ pre d1 d2, pyFormatF2 (PyVal.finite q) = pre ++ "." ++ String.mk [d1, d2] ∧
      d1.isDigit = true ∧ d2.isDigit = true := by
  refine ⟨(if decide (q < 0) = true then "-" else "") ++
      toString ((roundHalfEvenQ (q * 100)).natAbs / 100),
    digitChar ((roundHalfEvenQ (q * 100)).natAbs % 100 / 10),
    digitChar ((roundHalfEvenQ (q * 100)).natAbs % 10), ?_,
    digitChar_isDigit _ (by omega), digitChar_isDigit _ (by omega)⟩
  unfold pyFormatF2
  simp only []

/-- C2 (amended).  In every successful merge the price field is the
nested object with `sum` the formatted price and currency fixed "USD";
a price parsing to a finite double is formatted with exactly two digits
after the decimal point; a price that does not parse is passed through
raw (the formatting step never fails); a price parsing to an infinity
(a decimal numeral beyond double range) yields "inf"/"-inf". -/
theorem claim_c2_price (kvs : Kvs) (ui : UserInput) (cats : String)
    (cd : ConditionalData) (d : String) (r : Kvs)
    (h : customize_template (Json.obj kvs) ui cats cd d = some r) :
    getKey r "price" = some (Json.obj [("sum", Json.str (formatPrice ui.price)),
      ("currency", Json.obj [("value", Json.str "USD")])])
    ∧ (∀ q, pyFloatOfString ui.price = some (PyVal.finite q) →
        ∃ pre d1 d2, formatPrice ui.price = pre ++ "." ++ String.mk [d1, d2] ∧
          d1.isDigit = true ∧ d2.isDigit = true)
    ∧ (pyFloatOfString ui.price = none → formatPrice ui.price = ui.price)
    ∧ (∀ b, pyFloatOfString ui.price = some (PyVal.inf b) →
        formatPrice ui.price = if b then "-inf" else "inf") := by
  refine ⟨?_, ?_, ?_, ?_⟩
  · obtain ⟨kvsF, hf, rfl⟩ := customize_template_inv _ _ _ _ _ _ h
    obtain ⟨kvs0', kvs2, kvs3, kvs4, heq, h2, h3, h4, h5⟩ := customizeFront_inv _ _ _ hf
    injection heq with heq0
    subst heq0
    show getKey _ "price" = some (priceAmount ui.price)
    rw [cond_frame _ _ _ _ _ _ (by decide) (by decide) (by decide) (by decide) (by decide),
      stepOrder_frame _ _ _ _ h5 (by decide) (by decide)]
    exact stepPrice_price _ _ _ h4
  · intro q hq
    unfold formatPrice
    rw [hq]
    exact pyFormatF2_finite_shape q
  · intro h0
    unfold formatPrice
    rw [h0]
  · intro b hb
    unfold formatPrice
    rw [hb]
    cases b <;> rfl

/-- C3.  In every successful merge the note list contains one entry for
non-empty free-text "Note" data and one for non-empty "Reserve" data
with the literal "Reserve Note: " prepended; with both populated the
list has exactly those two elements in that order; and the `note` field
is replaced only when at least one entry exists (otherwise the
template's value is kept). -/
theorem claim_c3_notes (kvs : Kvs) (ui : UserInput) (cats : String)
    (cd : ConditionalData) (d : String) (r : Kvs)
    (h : customize_template (Json.obj kvs) ui cats cd d = some r) :
    (noteEntries cd ≠ [] → getKey r "note" = some (Json.arr (noteEntries cd)))
    ∧ (∀ s t', cd.additional_notes = some s → s ≠ "" →
        cd.reserve_note = some t' → t' ≠ "" →
        getKey r "note" = some (Json.arr [Json.obj [("note_text", Json.str s)],
          Json.obj [("note_text", Json.str ("Reserve Note: " ++ t'))]]))
    ∧ (noteEntries cd = [] → getKey r "note" = getKey kvs "note") := by
  obtain ⟨kvsF, hf, rfl⟩ := customize_template_inv _ _ _ _ _ _ h
  refine ⟨?_, ?_, ?_⟩
  · intro hne
    exact cond_note_set _ _ _ _ _ hne
  · intro s t' has hs hrt ht'
    have hent : noteEntries cd = [Json.obj [("note_text", Json.str s)],
        Json.obj [("note_text", Json.str ("Reserve Note: " ++ t'))]] := by
      unfold noteEntries
      rw [has, hrt]
      simp only []
      rw [if_pos hs, if_pos ht']
      rfl
    rw [cond_note_set _ _ _ _ _ (by rw [hent]; simp), hent]
  · intro hempty
    rw [cond_note_frame _ _ _ _ _ hempty]
    exact customizeFront_frame _ _ _ _ hf (by decide) (by decide) (by decide)
      (by decide) (by decide) (by decide) (by decide) (by decide) (by decide)

/-- C5.  In every successful merge, present interested-user data yields
a single-element list with the user id as `primary_id`, the two
booleans under their flag names and the renewal/cancel flags fixed
false; absent interested-user data leaves the field absent from the
output even when the template contained one. -/
theorem claim_c5_interested_user (kvs : Kvs) (ui : UserInput) (cats : String)
    (cd : ConditionalData) (d : String) (r : Kvs)
    (h : customize_template (Json.obj kvs) ui cats cd d = some r) :
    (∀ u, cd.interested_user = some u →
      getKey r "interested_user" = some (Json.arr [Json.obj [
        ("primary_id", Json.str u.user_id),
        ("notify_receiving_activation", Json.bool u.notify),
        ("hold_item", Json.bool u.hold),
        ("notify_renewal", Json.bool false),
        ("notify_cancel", Json.bool false)]]))
    ∧ (cd.interested_user = none → getKey r "interested_user" = none) := by
  obtain ⟨kvsF, hf, rfl⟩ := customize_template_inv _ _ _ _ _ _ h
  constructor
  · intro u hu
    exact cond_interested_some _ _ _ _ _ _ hu
  · intro hn
    exact cond_interested_none _ _ _ _ _ hn

/-- C10.  In every successful merge with no non-empty note text in the
conditional data, a pre-existing `note` field of the template is
retained unchanged, in contrast to `interested_user`, which is deleted
when its conditional data is absent. -/
theorem claim_c10_note_retained (kvs : Kvs) (ui : UserInput) (cats : String)
    (cd : ConditionalData) (d : String) (r : Kvs)
    (h : customize_template (Json.obj kvs) ui cats cd d = some r) :
    (noteEntries cd = [] → getKey r "note" = getKey kvs "note")
    ∧ (cd.interested_user = none → getKey r "interested_user" = none) := by
  obtain ⟨kvsF, hf, rfl⟩ := customize_template_inv _ _ _ _ _ _ h
  constructor
  · intro hempty
    rw [cond_note_frame _ _ _ _ _ hempty]
    exact customizeFront_frame _ _ _ _ hf (by decide) (by decide) (by decide)
      (by decide) (by decide) (by decide) (by decide) (by decide) (by decide)
  · intro hn
    exact cond_interested_none _ _ _ _ _ hn

/-- C4.  Every successful merge writes the title into the bibliographic
sub-mapping; author, ISBN, publisher and publication year are written
exactly when non-empty (an empty user value leaves the template's
binding, in particular it never introduces an empty field); and for a
template without a bibliographic block and all optional user fields
empty the output bibliographic block contains only the title. -/
theorem claim_c4_bibliographic (kvs : Kvs) (ui : UserInput) (cats : String)
    (cd : ConditionalData) (d : String) (r : Kvs)
    (h : customize_template (Json.obj kvs) ui cats cd d = some r) :
    getBib r "title" = some (Json.str ui.title)
    ∧ (ui.author ≠ "" → getBib r "author" = some (Json.str ui.author))
    ∧ (ui.author = "" → getBib r "author" = getBib kvs "author")
    ∧ (ui.isbn ≠ "" → getBib r "isbn" = some (Json.str ui.isbn))
    ∧ (ui.isbn = "" → getBib r "isbn" = getBib kvs "isbn")
    ∧ (ui.publisher ≠ "" → getBib r "publisher" = some (Json.str ui.publisher))
    ∧ (ui.publisher = "" → getBib r "publisher" = getBib kvs "publisher")
    ∧ (ui.publication_year ≠ "" →
        getBib r "publication_year" = some (Json.str ui.publication_year))
    ∧ (ui.publication_year = "" →
        getBib r "publication_year" = getBib kvs "publication_year")
    ∧ (getKey kvs "resource_metadata" = none → ui.author = "" → ui.isbn = "" →
        ui.publisher = "" → ui.publication_year = "" → ui.oclc_number = none →
        getKey r "resource_metadata" = some (Json.obj [("title", Json.str ui.title)])) := by
  obtain ⟨kvsF, hf, rfl⟩ := customize_template_inv _ _ _ _ _ _ h
  obtain ⟨kvs0', kvs2, kvs3, kvs4, heq, h2, h3, h4, h5⟩ := customizeFront_inv _ _ _ hf
  injection heq with heq0
  subst heq0
  obtain ⟨rmt, hval, hsrc⟩ := stepBib_rm_value _ _ _ h3
  have hrmr : getKey (customizeConditional kvsF ui cats cd d) "resource_metadata" =
      some (Json.obj (bibFields rmt ui)) := by
    rw [cond_frame _ _ _ _ _ _ (by decide) (by decide) (by decide) (by decide) (by decide),
      stepOrder_frame _ _ _ _ h5 (by decide) (by decide),
      stepPrice_frame _ _ _ _ h4 (by decide) (by decide)]
    exact hval
  have hsrc' : (getKey kvs "resource_metadata" = none ∧ rmt = []) ∨
      getKey kvs "resource_metadata" = some (Json.obj rmt) := by
    have hframe2 : getKey kvs2 "resource_metadata" = getKey kvs "resource_metadata" := by
      rw [stepVendor_frame _ _ _ _ h2 (by decide) (by decide),
        getKey_popKey_ne _ _ _ (by decide), getKey_popKey_ne _ _ _ (by decide)]
    rwa [hframe2] at hsrc
  have hbib : ∀ k, getBib (customizeConditional kvsF ui cats cd d) k =
      getKey (bibFields rmt ui) k := by
    intro k
    unfold getBib
    rw [hrmr]
  have htmpl : ∀ k, getKey rmt k = getBib kvs k := by
    intro k
    rcases hsrc' with ⟨hnone, rfl⟩ | hsome
    · unfold getBib
      rw [hnone]
      rfl
    · unfold getBib
      rw [hsome]
  refine ⟨?_, ?_, ?_, ?_, ?_, ?_, ?_, ?_, ?_, ?_⟩
  · rw [hbib]
    exact bibFields_title rmt ui
  · intro ha
    rw [hbib, bibFields_author, if_neg ha]
  · intro ha
    rw [hbib, bibFields_author, if_pos ha, htmpl]
  · intro hi
    rw [hbib, bibFields_isbn, if_neg hi]
  · intro hi
    rw [hbib, bibFields_isbn, if_pos hi, htmpl]
  · intro hp
    rw [hbib, bibFields_publisher, if_neg hp]
  · intro hp
    rw [hbib, bibFields_publisher, if_pos hp, htmpl]
  · intro hy
    rw [hbib, bibFields_publication_year, if_neg hy]
  · intro hy
    rw [hbib, bibFields_publication_year, if_pos hy, htmpl]
  · intro hrm0 ha hi hp hy ho
    have hrmt : rmt = [] := by
      rcases hsrc' with ⟨_, hr0⟩ | hsome
      · exact hr0
      · rw [hrm0] at hsome
        cases hsome
    rw [hrmr, hrmt, bibFields_empty _ _ ha hi hp hy ho]
    rfl

theorem stepPrice_fd_none (kvs : Kvs) (ui : UserInput) (out : Kvs)
    (hfd : getKey kvs "fund_distribution" = none)
    (h : stepPrice kvs ui = some out) :
    getKey out "fund_distribution" = none := by
  unfold stepPrice at h
  simp only [] at h
  rw [getKey_setKey_ne _ _ _ _ (by decide), hfd] at h
  simp only [] at h
  simp at h
  rw [← h, getKey_setKey_ne _ _ _ _ (by decide)]
  exact hfd

theorem stepPrice_fd_some (kvs : Kvs) (ui : UserInput) (out : Kvs)
    (fd0 : Kvs) (rest : List Json)
    (hfd : getKey kvs "fund_distribution" = some (Json.arr (Json.obj fd0 :: rest)))
    (h : stepPrice kvs ui = some out) :
    getKey out "fund_distribution" =
      some (Json.arr (Json.obj (setKey fd0 "amount" (priceAmount ui.price)) :: rest)) := by
  unfold stepPrice at h
  simp only [] at h
  rw [getKey_setKey_ne _ _ _ _ (by decide), hfd] at h
  simp only [] at h
  rw [if_pos (truthy_arr_cons _ _)] at h
  unfold setArr0 at h
  rw [getKey_setKey_ne _ _ _ _ (by decide), hfd] at h
  simp only [] at h
  simp at h
  rw [← h, getKey_setKey_self]

/-- Success of the merge on a template of the minimal conventional
shape: a dict-valued `vendor`, no `resource_metadata`, no
`fund_distribution` and no `location`; every key the merge leaves alone
keeps its template value. -/
theorem merge_shapes_frame (kvs vkvs : Kvs) (ui : UserInput) (cats : String)
    (cd : ConditionalData) (d : String)
    (hv : getKey kvs "vendor" = some (Json.obj vkvs))
    (hrm : getKey kvs "resource_metadata" = none)
    (hfd : getKey kvs "fund_distribution" = none)
    (hloc : getKey kvs "location" = none) :
    ∃ r, customize_template (Json.obj kvs) ui cats cd d = some r ∧
      ∀ k : String, "_description" ≠ k → "_template_version" ≠ k → "vendor" ≠ k →
        "vendor_account" ≠ k → "resource_metadata" ≠ k → "price" ≠ k →
        "vendor_reference_number" ≠ k → "receiving_note" ≠ k → "note" ≠ k →
        "interested_user" ≠ k → "expected_receipt_date" ≠ k → "reporting_code" ≠ k →
        getKey r k = getKey kvs k := by
  set kvs1 := popKey (popKey kvs "_description") "_template_version" with hk1
  have hpop : ∀ (k : String), "_description" ≠ k → "_template_version" ≠ k →
      getKey kvs1 k = getKey kvs k := by
    intro k hne1 hne2
    rw [hk1, getKey_popKey_ne _ _ _ hne2, getKey_popKey_ne _ _ _ hne1]
  have hv1 : getKey kvs1 "vendor" = some (Json.obj vkvs) :=
    (hpop _ (by decide) (by decide)).trans hv
  set kvs2 := setKey (setKey kvs1 "vendor"
      (Json.obj (setKey vkvs "value" (Json.str ui.vendor_code))))
      "vendor_account" (Json.str ui.vendor_account) with hk2
  have h2 : stepVendor kvs1 ui = some kvs2 := by
    unfold stepVendor setInner
    rw [hv1]
    rfl
  have hstep2 : ∀ (k : String), "vendor" ≠ k → "vendor_account" ≠ k →
      getKey kvs2 k = getKey kvs1 k := by
    intro k hne1 hne2
    rw [hk2, getKey_setKey_ne _ _ _ _ hne2, getKey_setKey_ne _ _ _ _ hne1]
  have hrm2 : getKey kvs2 "resource_metadata" = none := by
    rw [hstep2 _ (by decide) (by decide), hpop _ (by decide) (by decide)]
    exact hrm
  set kvs3 := setKey (setKey kvs2 "resource_metadata" (Json.obj []))
      "resource_metadata" (Json.obj (bibFields [] ui)) with hk3
  have h3 : stepBib kvs2 ui = some kvs3 := by
    unfold stepBib ensureRM
    have hh : hasKey kvs2 "resource_metadata" = false := by
      unfold hasKey
      rw [hrm2]
      rfl
    rw [hh]
    simp only [Bool.false_eq_true, if_false]
    rw [getKey_setKey_self]
  have hstep3 : ∀ (k : String), "resource_metadata" ≠ k →
      getKey kvs3 k = getKey kvs2 k := by
    intro k hne
    rw [hk3, getKey_setKey_ne _ _ _ _ hne, getKey_setKey_ne _ _ _ _ hne]
  have hfd3 : getKey kvs3 "fund_distribution" = none := by
    rw [hstep3 _ (by decide), hstep2 _ (by decide) (by decide),
      hpop _ (by decide) (by decide)]
    exact hfd
  set kvs4 := setKey kvs3 "price" (priceAmount ui.price) with hk4
  have h4 : stepPrice kvs3 ui = some kvs4 := by
    unfold stepPrice
    simp only []
    rw [getKey_setKey_ne _ _ _ _ (by decide), hfd3]
  have hstep4 : ∀ (k : String), "price" ≠ k → getKey kvs4 k = getKey kvs3 k := by
    intro k hne
    rw [hk4, getKey_setKey_ne _ _ _ _ hne]
  set kvs5 := if ui.vendor_reference_number ≠ "" then
      setKey kvs4 "vendor_reference_number" (Json.str ui.vendor_reference_number)
    else kvs4 with hk5
  have hstep5 : ∀ (k : String), "vendor_reference_number" ≠ k →
      getKey kvs5 k = getKey kvs4 k := by
    intro k hne
    rw [hk5]
    split
    · rw [getKey_setKey_ne _ _ _ _ hne]
    · rfl
  have hloc5 : getKey kvs5 "location" = none := by
    rw [hstep5 _ (by decide), hstep4 _ (by decide), hstep3 _ (by decide),
      hstep2 _ (by decide) (by decide), hpop _ (by decide) (by decide)]
    exact hloc
  have h5 : stepOrder kvs4 ui = some kvs5 := by
    unfold stepOrder
    simp only []
    rw [← hk5, hloc5]
  have hfront : customizeFront (Json.obj kvs) ui = some kvs5 := by
    unfold customizeFront
    simp only []
    rw [← hk1, h2]
    simp only []
    rw [h3]
    simp only []
    rw [h4]
    simp only []
    exact h5
  refine ⟨customizeConditional kvs5 ui cats cd d, ?_, ?_⟩
  · unfold customize_template
    rw [hfront]
    rfl
  · intro k k1 k2 k3 k4 k5 k6 k7 k8 k9 k10 k11 k12
    rw [cond_frame _ _ _ _ _ _ k8 k9 k10 k11 k12,
      hstep5 _ k7, hstep4 _ k6, hstep3 _ k5, hstep2 _ k3 k4, hpop _ k1 k2]

/-- C6.  When the template has a non-empty fund-distribution list whose
first element is an object, a successful merge overwrites only that
first element's amount (with the same amount object as the price field)
and leaves all later elements unchanged; when the template lacks the
field, the merge neither creates it nor errors (shown on any template
that is otherwise of the minimal conventional shape). -/
theorem claim_c6_fund_distribution (kvs : Kvs) (ui : UserInput) (cats : String)
    (cd : ConditionalData) (d : String) (r : Kvs)
    (h : customize_template (Json.obj kvs) ui cats cd d = some r) :
    (getKey kvs "fund_distribution" = none → getKey r "fund_distribution" = none)
    ∧ (∀ fd0 rest, getKey kvs "fund_distribution" = some (Json.arr (Json.obj fd0 :: rest)) →
        getKey r "fund_distribution" =
          some (Json.arr (Json.obj (setKey fd0 "amount" (priceAmount ui.price)) :: rest)))
    ∧ (∀ (kvs2 vkvs : Kvs), getKey kvs2 "fund_distribution" = none →
        getKey kvs2 "vendor" = some (Json.obj vkvs) →
        getKey kvs2 "resource_metadata" = none → getKey kvs2 "location" = none →
        ∃ r2, customize_template (Json.obj kvs2) ui cats cd d = some r2 ∧
          getKey r2 "fund_distribution" = none) := by
  obtain ⟨kvsF, hf, rfl⟩ := customize_template_inv _ _ _ _ _ _ h
  obtain ⟨kvs0', kvsB, kvs3, kvs4, heq, h2, h3, h4, h5⟩ := customizeFront_inv _ _ _ hf
  injection heq with heq0
  subst heq0
  have hfd3 : getKey kvs3 "fund_distribution" = getKey kvs "fund_distribution" := by
    rw [stepBib_frame _ _ _ _ h3 (by decide), stepVendor_frame _ _ _ _ h2 (by decide) (by decide),
      getKey_popKey_ne _ _ _ (by decide), getKey_popKey_ne _ _ _ (by decide)]
  have hout : ∀ j, getKey kvs4 "fund_distribution" = j →
      getKey (customizeConditional kvsF ui cats cd d) "fund_distribution" = j := by
    intro j hj
    rw [cond_frame _ _ _ _ _ _ (by decide) (by decide) (by decide) (by decide) (by decide),
      stepOrder_frame _ _ _ _ h5 (by decide) (by decide)]
    exact hj
  refine ⟨?_, ?_, ?_⟩
  · intro hfd
    exact hout none (stepPrice_fd_none _ _ _ (hfd3.trans hfd) h4)
  · intro fd0 rest hfd
    exact hout _ (stepPrice_fd_some _ _ _ _ _ (hfd3.trans hfd) h4)
  · intro kvs2 vkvs hfd2 hv2 hrm2 hloc2
    obtain ⟨r2, hr2, hframe⟩ := merge_shapes_frame kvs2 vkvs ui cats cd d hv2 hrm2 hfd2 hloc2
    refine ⟨r2, hr2, ?_⟩
    rw [hframe "fund_distribution" (by decide) (by decide) (by decide) (by decide)
      (by decide) (by decide) (by decide) (by decide) (by decide) (by decide)
      (by decide) (by decide)]
    exact hfd2

/-- C7 (counterexample).  Merging the empty template — which lacks the
`vendor.value` path — does not complete: the item assignment
`po_data['vendor']['value'] = ...` raises `KeyError` in Python, `none`
in the embedding. -/
theorem claim_c7_counterexample :
    customize_template (Json.obj []) sampleUI "None" cdEmpty "2026-11-11" = none := by
  rfl

/-- C7 (amended).  The merge requires the `vendor` key to be present as
a mapping; given that, a template lacking `resource_metadata`,
`fund_distribution`, `location` (and with `vendor.value`,
`material_type.value` not required) merges without error, and
`material_type` is passed through untouched. -/
theorem claim_c7_shapes (kvs vkvs : Kvs) (ui : UserInput) (cats : String)
    (cd : ConditionalData) (d : String)
    (hv : getKey kvs "vendor" = some (Json.obj vkvs))
    (hrm : getKey kvs "resource_metadata" = none)
    (hfd : getKey kvs "fund_distribution" = none)
    (hloc : getKey kvs "location" = none) :
    ∃ r, customize_template (Json.obj kvs) ui cats cd d = some r ∧
      getKey r "material_type" = getKey kvs "material_type" := by
  obtain ⟨r, hr, hframe⟩ := merge_shapes_frame kvs vkvs ui cats cd d hv hrm hfd hloc
  exact ⟨r, hr, hframe "material_type" (by decide) (by decide) (by decide) (by decide)
    (by decide) (by decide) (by decide) (by decide) (by decide) (by decide)
    (by decide) (by decide)⟩

theorem collapseWs_chars (l : List Char) (b : Bool) (c : Char)
    (hc : c ∈ collapseWs b l) : c = '_' ∨ (c ∈ l ∧ isPyWs c = false) := by
  induction l generalizing b with
  | nil => simp [collapseWs] at hc
  | cons a tl ih =>
    unfold collapseWs at hc
    by_cases ha : isPyWs a
    · rw [if_pos ha] at hc
      by_cases hb : b
      · rw [if_pos hb] at hc
        rcases ih true hc with h | ⟨hmem, hws⟩
        · exact Or.inl h
        · exact Or.inr ⟨List.mem_cons_of_mem _ hmem, hws⟩
      · rw [if_neg hb] at hc
        rcases List.mem_cons.mp hc with rfl | hc2
        · exact Or.inl rfl
        · rcases ih true hc2 with h | ⟨hmem, hws⟩
          · exact Or.inl h
          · exact Or.inr ⟨List.mem_cons_of_mem _ hmem, hws⟩
    · rw [if_neg ha] at hc
      rcases List.mem_cons.mp hc with rfl | hc2
      · exact Or.inr ⟨List.mem_cons_self _ _, by simpa using ha⟩
      · rcases ih false hc2 with h | ⟨hmem, hws⟩
        · exact Or.inl h
        · exact Or.inr ⟨List.mem_cons_of_mem _ hmem, hws⟩

theorem mem_stripWs (l : List Char) (c : Char) (h : c ∈ stripWs l) : c ∈ l := by
  unfold stripWs at h
  rw [List.mem_reverse] at h
  have h2 := (List.dropWhile_sublist _).subset h
  rw [List.mem_reverse] at h2
  exact (List.dropWhile_sublist _).subset h2

theorem clean_title_chars (title : String) (c : Char)
    (hc : c ∈ clean_title_of title) : isWordChar c = true ∨ c = '-' ∨ c = '_' := by
  unfold clean_title_of at hc
  simp only [] at hc
  have hc1 := List.take_subset _ _ hc
  rcases collapseWs_chars _ _ _ hc1 with rfl | ⟨hmem, hws⟩
  · exact Or.inr (Or.inr rfl)
  · have hmem2 := mem_stripWs _ _ hmem
    rw [List.mem_filter] at hmem2
    have hp := hmem2.2
    rw [hws] at hp
    simp only [Bool.or_false, Bool.false_or] at hp
    rcases Bool.or_eq_true_iff.mp hp with hw | hd
    · exact Or.inl hw
    · exact Or.inr (Or.inl (by simpa using hd))

theorem clean_vendor_ref_chars (vr : String) (c : Char)
    (hc : c ∈ clean_vendor_ref_of vr) : isWordChar c = true ∨ c = '-' := by
  unfold clean_vendor_ref_of at hc
  have hc1 := List.take_subset _ _ hc
  rw [List.mem_filter] at hc1
  rcases Bool.or_eq_true_iff.mp hc1.2 with hw | hd
  · exact Or.inl hw
  · exact Or.inr (by simpa using hd)

theorem natDigits2_digit (n : Nat) (c : Char) (h : c ∈ natDigits2 n) :
    c.isDigit = true := by
  unfold natDigits2 at h
  rcases List.mem_cons.mp h with rfl | h2
  · exact digitChar_isDigit _ (by omega)
  · rcases List.mem_cons.mp h2 with rfl | h3
    · exact digitChar_isDigit _ (by omega)
    · simp at h3

theorem natDigits4_digit (n : Nat) (c : Char) (h : c ∈ natDigits4 n) :
    c.isDigit = true := by
  unfold natDigits4 at h
  rcases List.mem_cons.mp h with rfl | h2
  · exact digitChar_isDigit _ (by omega)
  · rcases List.mem_cons.mp h2 with rfl | h3
    · exact digitChar_isDigit _ (by omega)
    · rcases List.mem_cons.mp h3 with rfl | h4
      · exact digitChar_isDigit _ (by omega)
      · rcases List.mem_cons.mp h4 with rfl | h5
        · exact digitChar_isDigit _ (by omega)
        · simp at h5

/-- C8.  Every generated filename is
`generic_<title30>_<vendorref15>_<YYYYMMDD_HHMMSS>.json`: the title
part is the title with non-word characters stripped, whitespace runs
collapsed to underscores and truncated to 30 characters; the
vendor-reference part is the reference with non-word/non-hyphen
characters stripped and truncated to 15; the placeholder "noref" is
used when the vendor reference is absent from the user-input dict; and
the timestamp is 8 digits, an underscore and 6 digits. -/
theorem claim_c8_generate_filename (title : String) (vr : Option String)
    (dt : DateTime) :
    generate_filename title vr dt =
      "generic_" ++ String.mk (clean_title_of title) ++ "_" ++
        String.mk (clean_vendor_ref_of (vr.getD "noref")) ++ "_" ++
        strftimeCompact dt ++ ".json"
    ∧ (clean_title_of title).length ≤ 30
    ∧ (∀ c ∈ clean_title_of title, isWordChar c = true ∨ c = '-' ∨ c = '_')
    ∧ (clean_vendor_ref_of (vr.getD "noref")).length ≤ 15
    ∧ (∀ c ∈ clean_vendor_ref_of (vr.getD "noref"), isWordChar c = true ∨ c = '-')
    ∧ (vr = none → clean_vendor_ref_of (vr.getD "noref") = "noref".toList)
    ∧ (∃ d8 d6 : List Char, (strftimeCompact dt).toList = d8 ++ '_' :: d6 ∧
        d8.length = 8 ∧ d6.length = 6 ∧ ∀ c ∈ d8 ++ d6, c.isDigit = true) := by
  refine ⟨rfl, ?_, fun c hc => clean_title_chars title c hc, ?_,
    fun c hc => clean_vendor_ref_chars _ c hc, ?_, ?_⟩
  · exact List.length_take_le _ _
  · exact List.length_take_le _ _
  · intro hnone
    subst hnone
    rfl
  · refine ⟨natDigits4 dt.year ++ natDigits2 dt.month ++ natDigits2 dt.day,
      natDigits2 dt.hour ++ natDigits2 dt.minute ++ natDigits2 dt.second,
      ?_, rfl, rfl, ?_⟩
    · simp [strftimeCompact, natDigits4, natDigits2]
    · intro c hc
      rcases List.mem_append.mp hc with h8 | h6
      · rcases List.mem_append.mp h8 with h4m | hday
        · rcases List.mem_append.mp h4m with h | h
          · exact natDigits4_digit _ _ h
          · exact natDigits2_digit _ _ h
        · exact natDigits2_digit _ _ hday
      · rcases List.mem_append.mp h6 with hhm | hsec
        · rcases List.mem_append.mp hhm with h | h
          · exact natDigits2_digit _ _ h
          · exact natDigits2_digit _ _ h
        · exact natDigits2_digit _ _ hsec

/-- C2 (counterexample).  The decimal numeral 2·10^308 parses
successfully under Python `float()` but overflows to infinity, and the
merge then writes the sum "inf", which is not a two-decimal rendering
of the number (it contains no decimal point at all). -/
theorem claim_c2_counterexample :
    pyFloatOfString bigPrice = some (PyVal.inf false)
    ∧ getKey ((customize_template (Json.obj sampleTemplate) uiBig "None" cdEmpty
        "2026-11-11").getD []) "price" = some (Json.obj [("sum", Json.str "inf"),
          ("currency", Json.obj [("value", Json.str "USD")])])
    ∧ ("inf".toList.all fun c => c ≠ '.') = true := by
  refine ⟨by with_unfolding_all rfl, by with_unfolding_all rfl, by decide⟩

/-- Witness for C1 at a concrete selection, template and inputs. -/
theorem claim_c1_witness :
    getKey ((customize_template (Json.obj sampleTemplate) sampleUI
        (receiving_category_string ["Note", "Reserve"]) cdNotes "2026-11-11").getD [])
      "receiving_note" = some (Json.str (pyJoin " | " ["Note", "Reserve"])) := by
  have h : customize_template (Json.obj sampleTemplate) sampleUI
      (receiving_category_string ["Note", "Reserve"]) cdNotes "2026-11-11"
      = some ((customize_template (Json.obj sampleTemplate) sampleUI
        (receiving_category_string ["Note", "Reserve"]) cdNotes "2026-11-11").getD []) := by
    with_unfolding_all rfl
  exact (claim_c1_receiving_categories ["Note", "Reserve"] sampleTemplate sampleUI
    cdNotes "2026-11-11" _).2.2.2 (by decide) (by decide) (by decide) (by decide) h

/-- Witness for C2 at a concrete merge with price "25". -/
theorem claim_c2_witness :
    getKey ((customize_template (Json.obj sampleTemplate) sampleUI "None" cdEmpty
        "2026-11-11").getD []) "price" = some (Json.obj
          [("sum", Json.str (formatPrice "25")),
           ("currency", Json.obj [("value", Json.str "USD")])])
    ∧ formatPrice "25" = "25.00" := by
  have h : customize_template (Json.obj sampleTemplate) sampleUI "None" cdEmpty
      "2026-11-11" = some ((customize_template (Json.obj sampleTemplate) sampleUI
        "None" cdEmpty "2026-11-11").getD []) := by
    with_unfolding_all rfl
  exact ⟨(claim_c2_price sampleTemplate sampleUI "None" cdEmpty "2026-11-11" _ h).1,
    by with_unfolding_all rfl⟩

/-- Witness for C3: both note texts populated yield the two-element list. -/
theorem claim_c3_witness :
    getKey ((customize_template (Json.obj sampleTemplate) sampleUI "Note | Reserve"
        cdNotes "2026-11-11").getD []) "note" = some (Json.arr
          [Json.obj [("note_text", Json.str "extra note")],
           Json.obj [("note_text", Json.str ("Reserve Note: " ++ "course reserve"))]]) := by
  have h : customize_template (Json.obj sampleTemplate) sampleUI "Note | Reserve"
      cdNotes "2026-11-11" = some ((customize_template (Json.obj sampleTemplate)
        sampleUI "Note | Reserve" cdNotes "2026-11-11").getD []) := by
    with_unfolding_all rfl
  exact (claim_c3_notes sampleTemplate sampleUI "Note | Reserve" cdNotes
    "2026-11-11" _ h).2.1 "extra note" "course reserve" rfl (by decide) rfl (by decide)

/-- Witness for C4: a template without a bibliographic block and all
optional fields empty yields a bibliographic block with only the title. -/
theorem claim_c4_witness :
    getKey ((customize_template (Json.obj sampleTemplate) sampleUI "None" cdEmpty
        "2026-11-11").getD []) "resource_metadata"
      = some (Json.obj [("title", Json.str "Learning Go")]) := by
  have h : customize_template (Json.obj sampleTemplate) sampleUI "None" cdEmpty
      "2026-11-11" = some ((customize_template (Json.obj sampleTemplate) sampleUI
        "None" cdEmpty "2026-11-11").getD []) := by
    with_unfolding_all rfl
  exact (claim_c4_bibliographic sampleTemplate sampleUI "None" cdEmpty "2026-11-11"
    _ h).2.2.2.2.2.2.2.2.2 rfl rfl rfl rfl rfl rfl

/-- Witness for C5: interested-user data present and absent, on a
template that carried a pre-existing `interested_user` value. -/
theorem claim_c5_witness :
    getKey ((customize_template (Json.obj sampleTemplate) sampleUI "Interested User"
        cdUser "2026-11-11").getD []) "interested_user" = some (Json.arr [Json.obj
          [("primary_id", Json.str "123456789"),
           ("notify_receiving_activation", Json.bool true),
           ("hold_item", Json.bool false),
           ("notify_renewal", Json.bool false),
           ("notify_cancel", Json.bool false)]])
    ∧ getKey ((customize_template (Json.obj sampleTemplate) sampleUI "None" cdEmpty
        "2026-11-11").getD []) "interested_user" = none := by
  have hU : customize_template (Json.obj sampleTemplate) sampleUI "Interested User"
      cdUser "2026-11-11" = some ((customize_template (Json.obj sampleTemplate)
        sampleUI "Interested User" cdUser "2026-11-11").getD []) := by
    with_unfolding_all rfl
  have hE : customize_template (Json.obj sampleTemplate) sampleUI "None" cdEmpty
      "2026-11-11" = some ((customize_template (Json.obj sampleTemplate) sampleUI
        "None" cdEmpty "2026-11-11").getD []) := by
    with_unfolding_all rfl
  exact ⟨(claim_c5_interested_user sampleTemplate sampleUI "Interested User" cdUser
      "2026-11-11" _ hU).1 _ rfl,
    (claim_c5_interested_user sampleTemplate sampleUI "None" cdEmpty
      "2026-11-11" _ hE).2 rfl⟩

/-- Witness for C6: the first fund-distribution element's amount is
overwritten, the second element untouched; a template without the field
merges without gaining it. -/
theorem claim_c6_witness :
    getKey ((customize_template (Json.obj sampleTemplate) sampleUI "None" cdEmpty
        "2026-11-11").getD []) "fund_distribution" = some (Json.arr
          [Json.obj [("amount", priceAmount "25")],
           Json.obj [("fund_code", Json.str "F2")]])
    ∧ getKey ((customize_template (Json.obj c7Template) sampleUI "None" cdEmpty
        "2026-11-11").getD []) "fund_distribution" = none := by
  have h : customize_template (Json.obj sampleTemplate) sampleUI "None" cdEmpty
      "2026-11-11" = some ((customize_template (Json.obj sampleTemplate) sampleUI
        "None" cdEmpty "2026-11-11").getD []) := by
    with_unfolding_all rfl
  have h2 : customize_template (Json.obj c7Template) sampleUI "None" cdEmpty
      "2026-11-11" = some ((customize_template (Json.obj c7Template) sampleUI
        "None" cdEmpty "2026-11-11").getD []) := by
    with_unfolding_all rfl
  refine ⟨(claim_c6_fund_distribution sampleTemplate sampleUI "None" cdEmpty
      "2026-11-11" _ h).2.1 [("amount", Json.str "0")]
      [Json.obj [("fund_code", Json.str "F2")]] rfl, ?_⟩
  obtain ⟨r2, hr2, hfd2⟩ := (claim_c6_fund_distribution sampleTemplate sampleUI "None"
    cdEmpty "2026-11-11" _ h).2.2 c7Template [("value", Json.str "v")] rfl rfl rfl rfl
  rw [hr2] at h2
  have hr2e : r2 = (customize_template (Json.obj c7Template) sampleUI "None" cdEmpty
      "2026-11-11").getD [] := by
    rw [hr2]
    rfl
  rw [← hr2e]
  exact hfd2

/-- Witness for C7 (amended): a template with only a vendor mapping and
a material type merges without error, material type untouched. -/
theorem claim_c7_witness :
    ∃ r, customize_template (Json.obj c7Template) sampleUI "None" cdEmpty
        "2026-11-11" = some r ∧
      getKey r "material_type" = getKey c7Template "material_type" := by
  exact claim_c7_shapes c7Template [("value", Json.str "v")] sampleUI "None" cdEmpty
    "2026-11-11" rfl rfl rfl rfl

/-- Witness for C8: the absent vendor reference yields the "noref"
placeholder, and the sample title respects the 30-character bound. -/
theorem claim_c8_witness :
    clean_vendor_ref_of ((none : Option String).getD "noref") = "noref".toList
    ∧ (clean_title_of "Learning Go: An Introduction!!").length ≤ 30
    ∧ generate_filename "Learning Go: An Introduction!!" (some "INV-2024/001")
        ⟨2026, 10, 12, 8, 53, 26⟩
      = "generic_Learning_Go_An_Introduction_INV-2024001_20261012_085326.json" := by
  refine ⟨(claim_c8_generate_filename "Learning Go: An Introduction!!" none
      ⟨2026, 10, 12, 8, 53, 26⟩).2.2.2.2.2.1 rfl,
    (claim_c8_generate_filename "Learning Go: An Introduction!!" none
      ⟨2026, 10, 12, 8, 53, 26⟩).2.1, by with_unfolding_all rfl⟩

/-- Witness for C10: with empty conditional data the template's note
value survives the merge while `interested_user` is deleted. -/
theorem claim_c10_witness :
    getKey ((customize_template (Json.obj sampleTemplate) sampleUI "None" cdEmpty
        "2026-11-11").getD []) "note" = some (Json.str "template note")
    ∧ getKey ((customize_template (Json.obj sampleTemplate) sampleUI "None" cdEmpty
        "2026-11-11").getD []) "interested_user" = none := by
  have h : customize_template (Json.obj sampleTemplate) sampleUI "None" cdEmpty
      "2026-11-11" = some ((customize_template (Json.obj sampleTemplate) sampleUI
        "None" cdEmpty "2026-11-11").getD []) := by
    with_unfolding_all rfl
  refine ⟨?_, (claim_c10_note_retained sampleTemplate sampleUI "None" cdEmpty
    "2026-11-11" _ h).2 rfl⟩
  have h1 := (claim_c10_note_retained sampleTemplate sampleUI "None" cdEmpty
    "2026-11-11" _ h).1 rfl
  rw [h1]
  rfl
